import Mathlib

/-
Shallow embedding of the CHIP-8 CPU core in src/src/cpu.rs.

Modelling conventions:
* Rust machine integers (u8, u16) become Nat with explicit reduction
  modulo 2^8 / 2^16 at every arithmetic write site (wrapping semantics).
* A Rust array index out of bounds is a panic; it is modelled as a
  fault: every handler returns Except Fault Cpu, and an out-of-range
  index yields Except.error Fault.indexOutOfBounds with no successor
  state (the panic aborts the step before a state is produced).
* Arrays of the struct are modelled as functions Nat -> Nat; every
  access site in the source carries its own bounds check here, exactly
  where the Rust indexing expression sits.
* Each definition mirrors one function of impl Cpu, statement by
  statement, including the source's bugs (the register selector
  `opcode & 0x0F00` is used unshifted, set_vx_xor uses `&`, shl_vx
  stores the raw masked bit, flag writes alias the register file).
-/

namespace Chip8

/-- A fault raised during one handler: a Rust panic from indexing an
array out of bounds. -/
inductive Fault where
  | indexOutOfBounds
deriving DecidableEq

/-- Wrapping 8-bit addition: Rust `+` on u8 without overflow checks. -/
def add8 (a b : Nat) : Nat := (a % 256 + b % 256) % 256

/-- Wrapping 8-bit subtraction: Rust `-` on u8 without overflow checks. -/
def sub8 (a b : Nat) : Nat := (a % 256 + (256 - b % 256)) % 256

/-- u8 left shift by one: `(a << 1)` on u8 discards the top bit. -/
def shl8 (a : Nat) : Nat := (a % 256) * 2 % 256

/-- Wrapping 16-bit addition: Rust `+` on u16 without overflow checks. -/
def add16 (a b : Nat) : Nat := (a % 65536 + b % 65536) % 65536

/-- Wrapping 16-bit subtraction: Rust `-` on u16 without overflow checks. -/
def sub16 (a b : Nat) : Nat := (a % 65536 + (65536 - b % 65536)) % 65536

/-- The machine state: field for field the Rust struct Cpu. -/
structure Cpu where
  opcode : Nat
  memory : Nat → Nat
  register : Nat → Nat
  address_register : Nat
  program_counter : Nat
  graphics : Nat → Nat
  delay_timer : Nat
  sound_timer : Nat
  stack : Nat → Nat
  stack_pointer : Nat
  key : Nat → Nat

/-- The 80-byte fontset preloaded at the bottom of memory. -/
def FONTSET : List Nat :=
  [0xF0, 0x90, 0x90, 0x90, 0xF0,
   0x20, 0x60, 0x20, 0x20, 0x70,
   0xF0, 0x10, 0xF0, 0x80, 0xF0,
   0xF0, 0x10, 0xF0, 0x10, 0xF0,
   0x90, 0x90, 0xF0, 0x10, 0x10,
   0xF0, 0x80, 0xF0, 0x10, 0xF0,
   0xF0, 0x80, 0xF0, 0x90, 0xF0,
   0xF0, 0x10, 0x20, 0x40, 0x40,
   0xF0, 0x90, 0xF0, 0x90, 0xF0,
   0xF0, 0x90, 0xF0, 0x10, 0xF0,
   0xF0, 0x90, 0xF0, 0x90, 0x90,
   0xE0, 0x90, 0xE0, 0x90, 0xE0,
   0xF0, 0x80, 0x80, 0x80, 0xF0,
   0xE0, 0x90, 0x90, 0x90, 0xE0,
   0xF0, 0x80, 0xF0, 0x80, 0xF0,
   0xF0, 0x80, 0xF0, 0x80, 0x80]

/-- Cpu::new — everything zeroed, PC at 0x200, fontset copied into
memory[0..80]. -/
def new : Cpu :=
  { opcode := 0
    memory := fun i => if i < 80 then FONTSET.getD i 0 else 0
    register := fun _ => 0
    address_register := 0
    program_counter := 0x200
    graphics := fun _ => 0
    delay_timer := 0
    sound_timer := 0
    stack := fun _ => 0
    stack_pointer := 0
    key := fun _ => 0 }

/-- Cpu::fetch_opcode — opcode := (memory[pc] << 8) | memory[pc + 1],
where both indexings panic outside [0, 4095]. -/
def fetch_opcode (s : Cpu) : Except Fault Cpu :=
  if s.program_counter < 4096 ∧ add16 s.program_counter 1 < 4096 then
    Except.ok { s with
      opcode := (s.memory s.program_counter <<< 8) |||
                 s.memory (add16 s.program_counter 1) }
  else Except.error Fault.indexOutOfBounds

/-- Cpu::cycle — the body only calls fetch_opcode; the execute and
timer-update stages are absent from the source (left as comments). -/
def cycle (s : Cpu) : Except Fault Cpu :=
  fetch_opcode s

/-- Cpu::cpu_return — sp -= 1; pc = stack[sp]; pc += 2. The
decremented pointer value sub16 s.stack_pointer 1 is the field value
the source writes first and then reads back for the stack access. -/
def cpu_return (s : Cpu) : Except Fault Cpu :=
  if sub16 s.stack_pointer 1 < 16 then
    Except.ok { s with
      stack_pointer := sub16 s.stack_pointer 1
      program_counter := add16 (s.stack (sub16 s.stack_pointer 1)) 2 }
  else Except.error Fault.indexOutOfBounds

/-- Cpu::jump — 1NNN: pc := opcode & 0x0FFF. -/
def jump (s : Cpu) : Except Fault Cpu :=
  Except.ok { s with program_counter := s.opcode &&& 0x0FFF }

/-- Cpu::call — 2NNN: stack[sp] = pc; sp += 1; pc := opcode & 0x0FFF.
There is no capacity check; stack[16] is an index panic. -/
def call (s : Cpu) : Except Fault Cpu :=
  if s.stack_pointer < 16 then
    Except.ok { s with
      stack := Function.update s.stack s.stack_pointer s.program_counter
      stack_pointer := add16 s.stack_pointer 1
      program_counter := s.opcode &&& 0x0FFF }
  else Except.error Fault.indexOutOfBounds

/-- Cpu::skip_equal — 3XNN. Note x = opcode & 0x0F00 is NOT shifted
right by 8 in the source; it is used directly as the register index. -/
def skip_equal (s : Cpu) : Except Fault Cpu :=
  let x := s.opcode &&& 0x0F00
  let val := s.opcode &&& 0x00FF
  if x < 16 then
    let s1 := if s.register x = val % 256
              then { s with program_counter := add16 s.program_counter 2 }
              else s
    Except.ok { s1 with program_counter := add16 s1.program_counter 2 }
  else Except.error Fault.indexOutOfBounds

/-- Cpu::skip_not_equal — 4XNN, same unshifted selector. -/
def skip_not_equal (s : Cpu) : Except Fault Cpu :=
  let x := s.opcode &&& 0x0F00
  let val := s.opcode &&& 0x00FF
  if x < 16 then
    let s1 := if s.register x ≠ val % 256
              then { s with program_counter := add16 s.program_counter 2 }
              else s
    Except.ok { s1 with program_counter := add16 s1.program_counter 2 }
  else Except.error Fault.indexOutOfBounds

/-- Cpu::skip_regs_equal — 5XY0, selectors x = opcode & 0x0F00 and
y = opcode & 0x00F0 unshifted. -/
def skip_regs_equal (s : Cpu) : Except Fault Cpu :=
  let x := s.opcode &&& 0x0F00
  let y := s.opcode &&& 0x00F0
  if x < 16 ∧ y < 16 then
    let s1 := if s.register x = s.register y
              then { s with program_counter := add16 s.program_counter 2 }
              else s
    Except.ok { s1 with program_counter := add16 s1.program_counter 2 }
  else Except.error Fault.indexOutOfBounds

/-- Cpu::set_vx_num — 6XNN: register[x] = NN, selector unshifted. -/
def set_vx_num (s : Cpu) : Except Fault Cpu :=
  let x := s.opcode &&& 0x0F00
  let val := s.opcode &&& 0x00FF
  if x < 16 then
    Except.ok { s with
      register := Function.update s.register x (val % 256)
      program_counter := add16 s.program_counter 2 }
  else Except.error Fault.indexOutOfBounds

/-- Cpu::add_vx_num — 7XNN: register[x] += NN, selector unshifted. -/
def add_vx_num (s : Cpu) : Except Fault Cpu :=
  let x := s.opcode &&& 0x0F00
  let val := s.opcode &&& 0x00FF
  if x < 16 then
    Except.ok { s with
      register := Function.update s.register x (add8 (s.register x) (val % 256))
      program_counter := add16 s.program_counter 2 }
  else Except.error Fault.indexOutOfBounds

/-- Cpu::set_vx_vy — 8XY0: register[x] = register[y]. -/
def set_vx_vy (s : Cpu) (x y : Nat) : Except Fault Cpu :=
  if x < 16 ∧ y < 16 then
    Except.ok { s with register := Function.update s.register x (s.register y) }
  else Except.error Fault.indexOutOfBounds

/-- Cpu::set_vx_xor — commented as 8XY3 (XOR) but the body computes
register[x] & register[y], the bitwise AND, not a XOR. -/
def set_vx_xor (s : Cpu) (x y : Nat) : Except Fault Cpu :=
  if x < 16 ∧ y < 16 then
    Except.ok { s with
      register := Function.update s.register x (Nat.land (s.register x) (s.register y)) }
  else Except.error Fault.indexOutOfBounds

/-- Cpu::add_vx_vy — 8XY4: register[x] += register[y] first, then the
carry flag is derived by comparing the UPDATED register[x] against
register[y] (reading the register file after the sum was stored). -/
def add_vx_vy (s : Cpu) (x y : Nat) : Except Fault Cpu :=
  if x < 16 ∧ y < 16 then
    let s1 := { s with
      register := Function.update s.register x (add8 (s.register x) (s.register y)) }
    if s1.register x < s1.register y then
      Except.ok { s1 with register := Function.update s1.register 15 1 }
    else
      Except.ok { s1 with register := Function.update s1.register 15 0 }
  else Except.error Fault.indexOutOfBounds

/-- Cpu::sub_vx_vy — 8XY5: the borrow flag is written into VF first,
then register[x] -= register[y] reads the register file AFTER that
flag write (so y = 0xF reads the flag, not the old VF). -/
def sub_vx_vy (s : Cpu) (x y : Nat) : Except Fault Cpu :=
  if x < 16 ∧ y < 16 then
    let s1 := if s.register x < s.register y
              then { s with register := Function.update s.register 15 0 }
              else { s with register := Function.update s.register 15 1 }
    Except.ok { s1 with
      register := Function.update s1.register x (sub8 (s1.register x) (s1.register y)) }
  else Except.error Fault.indexOutOfBounds

/-- Cpu::shr_vx — 8XY6: register[0xF] = register[x] & 1, then
register[x] = register[x] >> 1 (read after the flag write). -/
def shr_vx (s : Cpu) (x y : Nat) : Except Fault Cpu :=
  if x < 16 then
    let s1 := { s with register := Function.update s.register 15 (Nat.land (s.register x) 1) }
    Except.ok { s1 with
      register := Function.update s1.register x (s1.register x / 2) }
  else Except.error Fault.indexOutOfBounds

/-- Cpu::shl_vx — 8XYE: register[0xF] = register[x] & 0x80 (the RAW
masked value, 0 or 128, not normalized), then register[x] <<= 1. -/
def shl_vx (s : Cpu) (x y : Nat) : Except Fault Cpu :=
  if x < 16 then
    let s1 := { s with register := Function.update s.register 15 (Nat.land (s.register x) 0x80) }
    Except.ok { s1 with
      register := Function.update s1.register x (shl8 (s1.register x)) }
  else Except.error Fault.indexOutOfBounds

/-- Cpu::skip_regs_not_equal — 9XY0, selectors unshifted. -/
def skip_regs_not_equal (s : Cpu) : Except Fault Cpu :=
  let x := s.opcode &&& 0x0F00
  let y := s.opcode &&& 0x00F0
  if x < 16 ∧ y < 16 then
    let s1 := if s.register x ≠ s.register y
              then { s with program_counter := add16 s.program_counter 2 }
              else s
    Except.ok { s1 with program_counter := add16 s1.program_counter 2 }
  else Except.error Fault.indexOutOfBounds

/-- Cpu::add_adr_reg — FX1E: address_register += register[x] as u16;
the u8-to-u16 cast is the identity on the stored byte, no masking to
12 bits, and no other field is touched. -/
def add_adr_reg (s : Cpu) (x : Nat) : Except Fault Cpu :=
  if x < 16 then
    Except.ok { s with
      address_register := add16 s.address_register (s.register x) }
  else Except.error Fault.indexOutOfBounds

/-- The fresh machine with the opcode bytes 0x60 0x05 loaded at
addresses 0x200 and 0x201, as in spec scenario 1. -/
def demo1 : Cpu :=
  { new with memory := Function.update (Function.update new.memory 0x200 0x60) 0x201 0x05 }

/-- A machine holding opcode 0x70FF with V0 = 2, exercising the
wrapping add-immediate at selector X = 0. -/
def demo2wrap : Cpu :=
  { new with opcode := 0x70FF, register := Function.update new.register 0 2 }

/-- A machine with V0 = 10 and V1 = 6, distinguishing AND from XOR. -/
def demo5 : Cpu :=
  { new with register := Function.update (Function.update new.register 0 10) 1 6 }

/-- A machine with V0 = 0x80, the most-significant bit set. -/
def demo6 : Cpu :=
  { new with register := Function.update new.register 0 0x80 }

/-- A machine with V1 = 0x80, for the aliasing add 8114. -/
def demo3cx : Cpu :=
  { new with register := Function.update new.register 1 0x80 }

/-- A machine with V0 = 5 and VF = 3, for the subtraction 8XY5 with
Y = F. -/
def demo4cx : Cpu :=
  { new with register := Function.update (Function.update new.register 0 5) 15 3 }

/-- A machine with V1 = 0xFF and V2 = 1, as in spec scenario 3. -/
def demo3w : Cpu :=
  { new with register := Function.update (Function.update new.register 1 0xFF) 2 1 }

/-- A machine with V3 = 5 and V4 = 0x0A, as in spec scenario 4. -/
def demo4w : Cpu :=
  { new with register := Function.update (Function.update new.register 3 5) 4 0x0A }

/-- A machine with I = 0xFFF and V0 = 1, pushing the index register
past the 12-bit address range. -/
def demo10w : Cpu :=
  { new with address_register := 0xFFF, register := Function.update new.register 0 1 }

/-- Claim C1: the claim expects one cycle on demo1 to leave V0 = 5 and
PC = 0x202; the code's cycle only fetches the opcode (execute and
timer stages are unimplemented comments), so V0 stays 0 and PC stays
0x200 while the opcode latch holds 0x6005. -/
theorem C1_cycle_only_fetches :
    (cycle demo1).toOption.map (fun c => (c.register 0, c.program_counter, c.opcode)) =
      some (0, 0x200, 0x6005) ∧ (0 : Nat) ≠ 5 ∧ (0x200 : Nat) ≠ 0x202 := by
  decide

/-- Claim C2: the claim expects 7XNN to add NN into VX for every X;
the code uses opcode & 0x0F00 without shifting right by 8 as the
register index, so opcode 0x7105 indexes register[0x100], an
out-of-bounds panic. For X = 0 the masked selector is 0 and the
wrapping add itself behaves (0x70FF on V0 = 2 gives V0 = 1). -/
theorem C2_add_immediate_index_bug :
    add_vx_num { new with opcode := 0x7105 } = Except.error Fault.indexOutOfBounds ∧
    (add_vx_num demo2wrap).toOption.map (fun c => c.register 0) = some 1 :=
  ⟨rfl, by decide⟩

/-- Claim C5: the claim expects 8XY3 to compute the exclusive-or; the
code body computes the bitwise AND. With V0 = 10 and V1 = 6 the code
leaves V0 = 2 where XOR would give 12. -/
theorem C5_xor_handler_computes_and :
    (set_vx_xor demo5 0 1).toOption.map (fun c => c.register 0) = some 2 ∧
    Nat.xor 10 6 = 12 := by
  decide

/-- Claim C6: the claim expects 8XYE to set VF to the most-significant
bit normalized to 0/1; the code stores the raw masked value, so with
V0 = 0x80 it leaves VF = 128 (and V0 = 0), not VF = 1. The shift-right
half behaves as claimed at the same input (VF = 0, V0 = 0x40). -/
theorem C6_shl_flag_not_normalized :
    (shl_vx demo6 0 0).toOption.map (fun c => (c.register 0, c.register 15)) =
      some (0, 128) ∧
    (shr_vx demo6 0 0).toOption.map (fun c => (c.register 0, c.register 15)) =
      some (0x40, 0) := by
  decide

/-- Claim C9: the claim expects every skip instruction to advance PC by
2 or 4 for every selector; the code uses the unshifted masks
opcode & 0x0F00 and opcode & 0x00F0 as register indices, so X = 1
(index 0x100) or Y = 1 (index 0x10) panics out of bounds in all four
skip handlers. -/
theorem C9_skip_selector_bug :
    skip_equal { new with opcode := 0x3105 } = Except.error Fault.indexOutOfBounds ∧
    skip_not_equal { new with opcode := 0x4105 } = Except.error Fault.indexOutOfBounds ∧
    skip_regs_equal { new with opcode := 0x5100 } = Except.error Fault.indexOutOfBounds ∧
    skip_regs_not_equal { new with opcode := 0x9100 } = Except.error Fault.indexOutOfBounds :=
  ⟨rfl, rfl, rfl, rfl⟩

/-- Claim C3, counterexample: with X = Y = 1 and V1 = 0x80 the unmodded
sum is 256 > 255, so the claim demands VF = 1, but the code compares
the already-updated register against itself and sets VF = 0. -/
theorem C3_counterexample :
    ¬ ((add_vx_vy demo3cx 1 1).toOption.map (fun c => c.register 15) =
        some (if 255 < demo3cx.register 1 + demo3cx.register 1 then 1 else 0)) := by
  decide

/-- Claim C4, counterexample: with X = 0, Y = 15, V0 = 5 and VF = 3 the
claim demands V0 = (5 - 3) mod 256 = 2, but the code writes the borrow
flag into VF before subtracting and then reads register[15] again, so
it computes V0 = 5 - 1 = 4. -/
theorem C4_counterexample :
    ¬ ((sub_vx_vy demo4cx 0 15).toOption.map (fun c => c.register 0) =
        some ((demo4cx.register 0 + 256 - demo4cx.register 15) % 256)) := by
  decide

/-- Claim C7, counterexample: the claim says the 16th nested call
faults, but from stack pointer 15 (fifteen calls already nested) the
16th call succeeds and leaves the stack pointer at 16. -/
theorem C7_counterexample :
    (call { new with stack_pointer := 15 }).toOption.map Cpu.stack_pointer = some 16 := by
  decide

/-- The post-sum comparison used by add_vx_vy detects the carry
exactly when the unmodded sum exceeds 255, for in-range bytes. -/
theorem add8_lt_right_iff (a b : Nat) (ha : a < 256) (hb : b < 256) :
    (add8 a b < b) ↔ 255 < a + b := by
  unfold add8
  rw [Nat.mod_eq_of_lt ha, Nat.mod_eq_of_lt hb]
  rcases Nat.lt_or_ge (a + b) 256 with h | h
  · rw [Nat.mod_eq_of_lt h]
    omega
  · rw [Nat.mod_eq_sub_mod h, Nat.mod_eq_of_lt (by omega)]
    omega

/-- Claim C3, amended: for distinct selectors X and Y with X not the
flag register, 8XY4 stores the wrapped sum in VX and sets VF to 1
exactly when the unmodded sum exceeds 255 (when X = Y the code's
post-update comparison always yields VF = 0, and when X = F the flag
write overwrites the sum). -/
theorem C3_add_carry_amended (s : Cpu) (x y : Nat) (hx : x < 16) (hy : y < 16)
    (hxy : x ≠ y) (hxF : x ≠ 15)
    (ha : s.register x < 256) (hb : s.register y < 256) :
    (add_vx_vy s x y).toOption.map (fun c => (c.register x, c.register 15)) =
      some ((s.register x + s.register y) % 256,
            if 255 < s.register x + s.register y then 1 else 0) := by
  have hyx : y ≠ x := Ne.symm hxy
  have hFx : (15 : Nat) ≠ x := Ne.symm hxF
  have hkey := add8_lt_right_iff (s.register x) (s.register y) ha hb
  have hval : add8 (s.register x) (s.register y) = (s.register x + s.register y) % 256 := by
    unfold add8
    rw [Nat.mod_eq_of_lt ha, Nat.mod_eq_of_lt hb]
  by_cases hc : 255 < s.register x + s.register y
  · have hcond : (s.register x + s.register y) % 256 < s.register y := hval ▸ hkey.mpr hc
    simp [add_vx_vy, hx, hy, Function.update_same, Function.update_noteq hyx,
      Function.update_noteq hxF, Function.update_noteq hFx, Except.toOption,
      hcond, hval, hc]
  · have hnc : ¬ add8 (s.register x) (s.register y) < s.register y :=
      fun hlt => hc (hkey.mp hlt)
    have hcond : ¬ (s.register x + s.register y) % 256 < s.register y := hval ▸ hnc
    simp [add_vx_vy, hx, hy, Function.update_same, Function.update_noteq hyx,
      Function.update_noteq hxF, Function.update_noteq hFx, Except.toOption,
      hcond, hval, hc]

/-- Claim C3, witness: spec scenario 3 — V1 = 0xFF, V2 = 1, opcode
8124: the sum wraps to 0 and the carry flag is set. -/
theorem C3_add_carry_witness :
    (1 : Nat) < 16 ∧ (2 : Nat) < 16 ∧ (1 : Nat) ≠ 2 ∧ (1 : Nat) ≠ 15 ∧
    demo3w.register 1 < 256 ∧ demo3w.register 2 < 256 ∧
    ((add_vx_vy demo3w 1 2).toOption.map (fun c => (c.register 1, c.register 15)) =
      some ((demo3w.register 1 + demo3w.register 2) % 256,
            if 255 < demo3w.register 1 + demo3w.register 2 then 1 else 0)) ∧
    (demo3w.register 1 + demo3w.register 2) % 256 = 0 ∧
    255 < demo3w.register 1 + demo3w.register 2 :=
  ⟨by decide, by decide, by decide, by decide, by decide, by decide,
   C3_add_carry_amended demo3w 1 2 (by decide) (by decide) (by decide) (by decide)
     (by decide) (by decide),
   by decide, by decide⟩

/-- Claim C4, amended: for selectors X and Y neither of which is the
flag register, 8XY5 sets VF from the original operands (1 when
VX is at least VY, else 0) and stores the wrapped difference in VX
(when Y = F the subtraction re-reads the freshly written flag, and
when X = F the flag write is itself the minuend). -/
theorem C4_sub_borrow_amended (s : Cpu) (x y : Nat) (hx : x < 16) (hy : y < 16)
    (hxF : x ≠ 15) (hyF : y ≠ 15)
    (ha : s.register x < 256) (hb : s.register y < 256) :
    (sub_vx_vy s x y).toOption.map (fun c => (c.register x, c.register 15)) =
      some ((s.register x + 256 - s.register y) % 256,
            if s.register y ≤ s.register x then 1 else 0) := by
  have hFx : (15 : Nat) ≠ x := Ne.symm hxF
  have hval : sub8 (s.register x) (s.register y) =
      (s.register x + 256 - s.register y) % 256 := by
    unfold sub8
    rw [Nat.mod_eq_of_lt ha, Nat.mod_eq_of_lt hb, Nat.add_sub_assoc (by omega)]
  by_cases hc : s.register x < s.register y
  · have hc2 : ¬ s.register y ≤ s.register x := by omega
    simp [sub_vx_vy, hx, hy, hc, hc2, Function.update_same,
      Function.update_noteq hxF, Function.update_noteq hyF, Function.update_noteq hFx,
      Except.toOption, hval]
  · have hc2 : s.register y ≤ s.register x := by omega
    simp [sub_vx_vy, hx, hy, hc, hc2, Function.update_same,
      Function.update_noteq hxF, Function.update_noteq hyF, Function.update_noteq hFx,
      Except.toOption, hval]

/-- Claim C4, witness: spec scenario 4 — V3 = 5, V4 = 0x0A, opcode
8345: the difference wraps to 0xFB and VF = 0 records the borrow. -/
theorem C4_sub_borrow_witness :
    (3 : Nat) < 16 ∧ (4 : Nat) < 16 ∧ (3 : Nat) ≠ 15 ∧ (4 : Nat) ≠ 15 ∧
    demo4w.register 3 < 256 ∧ demo4w.register 4 < 256 ∧
    ((sub_vx_vy demo4w 3 4).toOption.map (fun c => (c.register 3, c.register 15)) =
      some ((demo4w.register 3 + 256 - demo4w.register 4) % 256,
            if demo4w.register 4 ≤ demo4w.register 3 then 1 else 0)) ∧
    (demo4w.register 3 + 256 - demo4w.register 4) % 256 = 0xFB ∧
    ¬ demo4w.register 4 ≤ demo4w.register 3 :=
  ⟨by decide, by decide, by decide, by decide, by decide, by decide,
   C4_sub_borrow_amended demo4w 3 4 (by decide) (by decide) (by decide) (by decide)
     (by decide) (by decide),
   by decide, by decide⟩

/-- Claim C7, amended: from any stack pointer at most 15 (so for the
1st through 16th nested call), a call followed immediately by a return
restores PC to its pre-call value plus the normal 2-byte advance and
restores the stack pointer; a call with the stack pointer at 16 (the
17th nested call) faults. -/
theorem C7_call_return_amended (s : Cpu) (h : s.stack_pointer ≤ 15) :
    (((call s).bind cpu_return).toOption.map
        (fun c => (c.program_counter, c.stack_pointer)) =
      some ((s.program_counter + 2) % 65536, s.stack_pointer)) ∧
    call { s with stack_pointer := 16 } = Except.error Fault.indexOutOfBounds := by
  constructor
  · have h1 : s.stack_pointer < 16 := by omega
    have hsp1 : add16 s.stack_pointer 1 = s.stack_pointer + 1 := by
      unfold add16
      rw [Nat.mod_eq_of_lt (by omega : s.stack_pointer < 65536)]
      exact Nat.mod_eq_of_lt (by omega)
    have hsp2 : sub16 (s.stack_pointer + 1) 1 = s.stack_pointer := by
      unfold sub16
      rw [Nat.mod_eq_of_lt (by omega : s.stack_pointer + 1 < 65536)]
      have : s.stack_pointer + 1 + (65536 - 1 % 65536) =
          s.stack_pointer + 65536 := by omega
      rw [this, Nat.add_mod_right]
      exact Nat.mod_eq_of_lt (by omega)
    have hpc : add16 s.program_counter 2 = (s.program_counter + 2) % 65536 := by
      unfold add16
      rw [Nat.mod_eq_of_lt (by omega : (2 : Nat) < 65536), Nat.mod_add_mod]
    simp [call, cpu_return, h1, hsp1, hsp2, hpc, Function.update_same,
      Except.toOption, Except.bind]
    rw [hsp2, Function.update_same]
    exact hpc
  · simp [call]

/-- Claim C7, witness: on the fresh machine (stack pointer 0) the
round trip lands PC on 0x202 with the stack pointer back at 0, and a
full stack faults. -/
theorem C7_call_return_witness :
    new.stack_pointer ≤ 15 ∧
    ((((call new).bind cpu_return).toOption.map
        (fun c => (c.program_counter, c.stack_pointer)) =
      some ((new.program_counter + 2) % 65536, new.stack_pointer)) ∧
     call { new with stack_pointer := 16 } = Except.error Fault.indexOutOfBounds) ∧
    (new.program_counter + 2) % 65536 = 0x202 :=
  ⟨by decide, C7_call_return_amended new (by decide), by decide⟩

/-- Claim C8: a call with the stack pointer at capacity (16) faults —
the source has no explicit capacity check, so the fault is the index
panic on stack[16] — and a return with the stack empty faults — the
u16 stack-pointer decrement wraps to 65535 and stack[65535] panics.
The handler produces no successor state: the panic is surfaced to the
caller, not swallowed. -/
theorem C8_stack_faults (s t : Cpu) (hs : s.stack_pointer = 16) (ht : t.stack_pointer = 0) :
    call s = Except.error Fault.indexOutOfBounds ∧
    cpu_return t = Except.error Fault.indexOutOfBounds := by
  constructor
  · simp [call, hs]
  · simp [cpu_return, ht, sub16]

/-- Claim C8, witness: the faults at stack pointer 16 (call) and 0
(return) on concrete machines. -/
theorem C8_stack_faults_witness :
    ({ new with stack_pointer := 16 } : Cpu).stack_pointer = 16 ∧
    new.stack_pointer = 0 ∧
    (call { new with stack_pointer := 16 } = Except.error Fault.indexOutOfBounds ∧
     cpu_return new = Except.error Fault.indexOutOfBounds) :=
  ⟨rfl, rfl, C8_stack_faults { new with stack_pointer := 16 } new rfl rfl⟩

/-- Claim C10: for every selector X and every machine state with
in-range fields, FX1E replaces only the index register, with the plain
16-bit wrapping sum I + VX, masking nothing else and writing no V
register. -/
theorem C10_add_index_frame (s : Cpu) (x : Nat) (hx : x < 16)
    (hI : s.address_register < 65536) (hv : s.register x < 256) :
    add_adr_reg s x =
      Except.ok { s with
        address_register := (s.address_register + s.register x) % 65536 } := by
  have hval : add16 s.address_register (s.register x) =
      (s.address_register + s.register x) % 65536 := by
    unfold add16
    rw [Nat.mod_eq_of_lt hI, Nat.mod_eq_of_lt (by omega : s.register x < 65536)]
  simp [add_adr_reg, hx, hval]

/-- Claim C10, witness: with I = 0xFFF and V0 = 1 the handler leaves
I = 0x1000, a value above the 12-bit address range, with all V
registers untouched. -/
theorem C10_add_index_witness :
    (0 : Nat) < 16 ∧ demo10w.address_register < 65536 ∧ demo10w.register 0 < 256 ∧
    add_adr_reg demo10w 0 =
      Except.ok { demo10w with
        address_register := (demo10w.address_register + demo10w.register 0) % 65536 } ∧
    (demo10w.address_register + demo10w.register 0) % 65536 = 0x1000 ∧
    0xFFF < (0x1000 : Nat) :=
  ⟨by decide, by decide, by decide,
   C10_add_index_frame demo10w 0 (by decide) (by decide) (by decide),
   by decide, by decide⟩

end Chip8
